import Mathlib

/-!
Shallow embedding of the affirmation-generator action handlers
(src/actions/index.ts) and of the two astro:db tables they operate on
(AffirmationCollections, Affirmations).

Modelling decisions:
* The persistence store is a pair of lists of rows; `db.select().where(...)`
  is `List.filter`, destructuring `const [x] = ...` is `List.head?`,
  `db.insert` appends, `db.update ... where` maps the update over matching
  rows, `db.delete ... where` filters matching rows out.
* The call context carries `Option String`: `some u` is an authenticated
  user with id `u`, `none` is an unauthenticated call (`locals.user` absent).
* `crypto.randomUUID()` and `new Date()` are environment inputs, passed as
  explicit `freshId : String` and `now : Nat` parameters.
* zod input parsing happens before the handler body runs (defineAction
  validates the input against the schema first), so each operation checks
  its value-level schema refinements before `requireUser`.
* A zod `T.optional()` field is `Option T` (`none` = undefined); the
  `z.string().nullable().optional()` collectionId of updateAffirmation is
  `Option (Option String)` (`none` = undefined, `some none` = null,
  `some (some s)` = the string `s`).
* JavaScript truthiness of a string-or-absent value (`if (input.collectionId)`)
  is: present and not the empty string.
* Errors are the `ActionError` codes plus a `VALIDATION` code for zod
  schema failures; an operation returns `Except ErrorCode (payload × Store)`,
  so an error leaves the caller's store untouched by construction, matching
  the code which throws before any mutating db call.
-/

namespace AffirmationGenerator

/-- The useTimeOfDay enumerated value: one of morning, evening, any. -/
inductive TimeOfDay where
  | morning
  | evening
  | any
deriving DecidableEq

/-- A row of the AffirmationCollections table. -/
structure Collection where
  id : String
  userId : String
  name : String
  description : Option String
  icon : Option String
  isDefault : Bool
  createdAt : Nat
  updatedAt : Nat
deriving DecidableEq

/-- A row of the Affirmations table. -/
structure Affirmation where
  id : String
  collectionId : Option String
  userId : String
  text : String
  category : Option String
  language : Option String
  tags : Option String
  useTimeOfDay : Option TimeOfDay
  isFavorite : Bool
  isSystem : Bool
  createdAt : Nat
  updatedAt : Nat
deriving DecidableEq

/-- The persistence store: the two tables. -/
structure Store where
  collections : List Collection
  affirmations : List Affirmation
deriving DecidableEq

/-- Error outcomes: the two ActionError codes used by the handlers, plus
the generic zod input-validation failure. -/
inductive ErrorCode where
  | UNAUTHORIZED
  | NOT_FOUND
  | VALIDATION
deriving DecidableEq

/-- requireUser: extract the authenticated user from the call context,
failing UNAUTHORIZED when absent. -/
def requireUser (ctx : Option String) : Except ErrorCode String :=
  match ctx with
  | none => Except.error ErrorCode.UNAUTHORIZED
  | some u => Except.ok u

/-- JavaScript truthiness of an optional string: present and non-empty. -/
def strTruthy : Option String → Bool
  | some s => s != ""
  | none => false

/-- JavaScript truthiness of an optional nullable string: present,
non-null and non-empty. -/
def nullableTruthy : Option (Option String) → Bool
  | some (some s) => s != ""
  | some none => false
  | none => false

/-- Input of createCollection (zod object). -/
structure CreateCollectionInput where
  name : String
  description : Option String
  icon : Option String
  isDefault : Option Bool
deriving DecidableEq

/-- createCollection handler. -/
def createCollection (ctx : Option String) (i : CreateCollectionInput)
    (freshId : String) (now : Nat) (st : Store) :
    Except ErrorCode (Collection × Store) :=
  if i.name != "" then
    match requireUser ctx with
    | Except.error e => Except.error e
    | Except.ok user =>
      let collection : Collection :=
        { id := freshId
          userId := user
          name := i.name
          description := i.description
          icon := i.icon
          isDefault := i.isDefault.getD false
          createdAt := now
          updatedAt := now }
      Except.ok (collection, { st with collections := st.collections ++ [collection] })
  else Except.error ErrorCode.VALIDATION

/-- Input of updateCollection (zod object, before the refine check). -/
structure UpdateCollectionInput where
  id : String
  name : Option String
  description : Option String
  icon : Option String
  isDefault : Option Bool
deriving DecidableEq

/-- updateCollectionSchema value-level checks: name min length 1 when
present, and the refine that at least one optional field is provided. -/
def updateCollectionCheck (i : UpdateCollectionInput) : Bool :=
  (match i.name with | some n => n != "" | none => true)
    && (i.name.isSome || i.description.isSome || i.icon.isSome || i.isDefault.isSome)

/-- The updates object of updateCollection spread over an existing row:
only the supplied fields are replaced, updatedAt is always refreshed. -/
def applyCollectionUpdates (i : UpdateCollectionInput) (now : Nat)
    (c : Collection) : Collection :=
  { c with
    name := match i.name with | some v => v | none => c.name
    description := match i.description with | some v => some v | none => c.description
    icon := match i.icon with | some v => some v | none => c.icon
    isDefault := match i.isDefault with | some v => v | none => c.isDefault
    updatedAt := now }

/-- updateCollection handler. -/
def updateCollection (ctx : Option String) (i : UpdateCollectionInput)
    (now : Nat) (st : Store) : Except ErrorCode (Collection × Store) :=
  if updateCollectionCheck i then
    match requireUser ctx with
    | Except.error e => Except.error e
    | Except.ok user =>
      match (st.collections.filter fun c => c.id == i.id && c.userId == user).head? with
      | none => Except.error ErrorCode.NOT_FOUND
      | some existing =>
        let st' : Store :=
          { st with collections := st.collections.map fun c =>
              if c.id == i.id && c.userId == user then applyCollectionUpdates i now c else c }
        Except.ok (applyCollectionUpdates i now existing, st')
  else Except.error ErrorCode.VALIDATION

/-- deleteCollection handler: cascade-deletes the caller's affirmations in
the collection, then the collection row itself. -/
def deleteCollection (ctx : Option String) (id : String) (st : Store) :
    Except ErrorCode (Unit × Store) :=
  match requireUser ctx with
  | Except.error e => Except.error e
  | Except.ok user =>
    match (st.collections.filter fun c => c.id == id && c.userId == user).head? with
    | none => Except.error ErrorCode.NOT_FOUND
    | some _ =>
      let affs := st.affirmations.filter fun a =>
        !(a.collectionId == some id && a.userId == user)
      let cols := st.collections.filter fun c =>
        !(c.id == id && c.userId == user)
      Except.ok ((), { collections := cols, affirmations := affs })

/-- listCollections handler. -/
def listCollections (ctx : Option String) (st : Store) :
    Except ErrorCode ((List Collection × Nat) × Store) :=
  match requireUser ctx with
  | Except.error e => Except.error e
  | Except.ok user =>
    let items := st.collections.filter fun c => c.userId == user
    Except.ok ((items, items.length), st)

/-- Input of createAffirmation (zod object). -/
structure CreateAffirmationInput where
  text : String
  collectionId : Option String
  category : Option String
  language : Option String
  tags : Option String
  useTimeOfDay : Option TimeOfDay
  isFavorite : Option Bool
deriving DecidableEq

/-- createAffirmation handler: re-validates a truthy collectionId against
the caller's collections, then inserts the row with isSystem false and
collectionId stored as given (undefined coalesced to null). -/
def createAffirmation (ctx : Option String) (i : CreateAffirmationInput)
    (freshId : String) (now : Nat) (st : Store) :
    Except ErrorCode (Affirmation × Store) :=
  if i.text != "" then
    match requireUser ctx with
    | Except.error e => Except.error e
    | Except.ok user =>
      if strTruthy i.collectionId
          && (st.collections.filter fun c =>
                some c.id == i.collectionId && c.userId == user).isEmpty then
        Except.error ErrorCode.NOT_FOUND
      else
        let affirmation : Affirmation :=
          { id := freshId
            collectionId := i.collectionId
            userId := user
            text := i.text
            category := i.category
            language := i.language
            tags := i.tags
            useTimeOfDay := i.useTimeOfDay
            isFavorite := i.isFavorite.getD false
            isSystem := false
            createdAt := now
            updatedAt := now }
        Except.ok (affirmation, { st with affirmations := st.affirmations ++ [affirmation] })
  else Except.error ErrorCode.VALIDATION

/-- Input of updateAffirmation (zod object, before the refine check). -/
structure UpdateAffirmationInput where
  id : String
  text : Option String
  collectionId : Option (Option String)
  category : Option String
  language : Option String
  tags : Option String
  useTimeOfDay : Option TimeOfDay
  isFavorite : Option Bool
deriving DecidableEq

/-- updateAffirmationSchema value-level checks: text min length 1 when
present, and the refine that at least one optional field is provided. -/
def updateAffirmationCheck (i : UpdateAffirmationInput) : Bool :=
  (match i.text with | some t => t != "" | none => true)
    && (i.text.isSome || i.collectionId.isSome || i.category.isSome
        || i.language.isSome || i.tags.isSome || i.useTimeOfDay.isSome
        || i.isFavorite.isSome)

/-- The updates object of updateAffirmation spread over an existing row:
only the supplied fields are replaced (an explicitly null collectionId
replaces with null), updatedAt is always refreshed. -/
def applyAffirmationUpdates (i : UpdateAffirmationInput) (now : Nat)
    (a : Affirmation) : Affirmation :=
  { a with
    text := match i.text with | some v => v | none => a.text
    collectionId := match i.collectionId with | some v => v | none => a.collectionId
    category := match i.category with | some v => some v | none => a.category
    language := match i.language with | some v => some v | none => a.language
    tags := match i.tags with | some v => some v | none => a.tags
    useTimeOfDay := match i.useTimeOfDay with | some v => some v | none => a.useTimeOfDay
    isFavorite := match i.isFavorite with | some v => v | none => a.isFavorite
    updatedAt := now }

/-- updateAffirmation handler: looks up the row by id and owner,
re-validates collectionId only when it is truthy, merges the supplied
fields and persists. -/
def updateAffirmation (ctx : Option String) (i : UpdateAffirmationInput)
    (now : Nat) (st : Store) : Except ErrorCode (Affirmation × Store) :=
  if updateAffirmationCheck i then
    match requireUser ctx with
    | Except.error e => Except.error e
    | Except.ok user =>
      match (st.affirmations.filter fun a => a.id == i.id && a.userId == user).head? with
      | none => Except.error ErrorCode.NOT_FOUND
      | some existing =>
        if nullableTruthy i.collectionId
            && (st.collections.filter fun c =>
                  some (some c.id) == i.collectionId && c.userId == user).isEmpty then
          Except.error ErrorCode.NOT_FOUND
        else
          let st' : Store :=
            { st with affirmations := st.affirmations.map fun a =>
                if a.id == i.id && a.userId == user then applyAffirmationUpdates i now a else a }
          Except.ok (applyAffirmationUpdates i now existing, st')
  else Except.error ErrorCode.VALIDATION

/-- deleteAffirmation handler. -/
def deleteAffirmation (ctx : Option String) (id : String) (st : Store) :
    Except ErrorCode (Unit × Store) :=
  match requireUser ctx with
  | Except.error e => Except.error e
  | Except.ok user =>
    match (st.affirmations.filter fun a => a.id == id && a.userId == user).head? with
    | none => Except.error ErrorCode.NOT_FOUND
    | some _ =>
      Except.ok ((), { st with affirmations := st.affirmations.filter fun a =>
        !(a.id == id && a.userId == user) })

/-- Input of listAffirmations (zod object, itself optional at the call). -/
structure ListAffirmationsInput where
  collectionId : Option String
  favoritesOnly : Option Bool
deriving DecidableEq

/-- The conjunction of filters built by listAffirmations: always the
owner filter; the collectionId filter when that field is truthy; the
isFavorite filter when favoritesOnly is truthy. -/
def listMatches (user : String) (i : Option ListAffirmationsInput)
    (a : Affirmation) : Bool :=
  a.userId == user
    && (if strTruthy (i.bind fun x => x.collectionId) then
          a.collectionId == i.bind fun x => x.collectionId
        else true)
    && (if (i.bind fun x => x.favoritesOnly).getD false then
          a.isFavorite == true
        else true)

/-- listAffirmations handler. -/
def listAffirmations (ctx : Option String) (i : Option ListAffirmationsInput)
    (st : Store) : Except ErrorCode ((List Affirmation × Nat) × Store) :=
  match requireUser ctx with
  | Except.error e => Except.error e
  | Except.ok user =>
    let items := st.affirmations.filter (listMatches user i)
    Except.ok ((items, items.length), st)

/-- The collections of the store owned by users other than u. -/
def othersCols (u : String) (st : Store) : List Collection :=
  st.collections.filter fun c => c.userId != u

/-- The affirmations of the store owned by users other than u. -/
def othersAffs (u : String) (st : Store) : List Affirmation :=
  st.affirmations.filter fun a => a.userId != u

/-- Rows owned by users other than u are exactly preserved between two
store states. -/
def othersPreserved (u : String) (st st' : Store) : Prop :=
  othersCols u st' = othersCols u st ∧ othersAffs u st' = othersAffs u st

/-- The first row returned by a filtered select is in the table and
satisfies the filter. -/
theorem filter_head_spec {α} {p : α → Bool} {l : List α} {x : α}
    (h : (l.filter p).head? = some x) : x ∈ l ∧ p x = true := by
  have hx : x ∈ l.filter p := by
    cases hl : l.filter p with
    | nil => rw [hl] at h; exact absurd h (by simp)
    | cons a t =>
      rw [hl] at h
      simp only [List.head?_cons, Option.some.injEq] at h
      exact h ▸ List.mem_cons_self a t
  exact ⟨List.mem_of_mem_filter hx, List.of_mem_filter hx⟩

/-- A filtered select over a table holding a matching row returns a first
row. -/
theorem filter_head_of_mem {α} {p : α → Bool} {l : List α} {x : α}
    (hm : x ∈ l) (hp : p x = true) : ∃ y, (l.filter p).head? = some y := by
  have hne : l.filter p ≠ [] := List.ne_nil_of_mem (List.mem_filter.mpr ⟨hm, hp⟩)
  cases hl : l.filter p with
  | nil => exact absurd hl hne
  | cons a t => exact ⟨a, rfl⟩

/-- An update applied to the rows matching q does not change the rows
kept by a filter p, provided p ignores the update and rejects every
q-matching row. -/
theorem filter_map_ite {α} (p q : α → Bool) (f : α → α) (l : List α)
    (hpf : ∀ a, p (f a) = p a) (hqp : ∀ a, q a = true → p a = false) :
    (l.map fun a => if q a then f a else a).filter p = l.filter p := by
  induction l with
  | nil => rfl
  | cons a t ih =>
    cases hq : q a with
    | false => simp [List.filter_cons, hq, ih]
    | true => simp [List.filter_cons, hq, hpf a, hqp a hq, ih]

/-- Deleting the rows matching q does not change the rows kept by a
filter p that rejects every q-matching row. -/
theorem filter_filter_not {α} (p q : α → Bool) (l : List α)
    (hqp : ∀ a, q a = true → p a = false) :
    (l.filter fun a => !(q a)).filter p = l.filter p := by
  induction l with
  | nil => rfl
  | cons a t ih =>
    cases hq : q a with
    | false => simp [List.filter_cons, hq, ih]
    | true => simp [List.filter_cons, hq, hqp a hq, ih]

/-- Inserting a row rejected by a filter p does not change the rows kept
by p. -/
theorem filter_append_single {α} (p : α → Bool) (l : List α) (x : α)
    (hx : p x = false) : (l ++ [x]).filter p = l.filter p := by
  simp [List.filter_append, hx]

/-- Claim C1: ownership isolation holds for every operation: an operation
invoked by authenticated user u preserves, row for row, every Collection
and Affirmation owned by any other user, and every row appearing in a
success payload is owned by u; in particular updateCollection invoked by
u on a collection owned only by other users fails NOT_FOUND (and, being
an error, leaves the store unchanged). -/
theorem C1_ownership_isolation (u : String) (st : Store) :
    (∀ i fid now p st', createCollection (some u) i fid now st = Except.ok (p, st') →
      othersPreserved u st st' ∧ p.userId = u)
    ∧ (∀ i now p st', updateCollection (some u) i now st = Except.ok (p, st') →
      othersPreserved u st st' ∧ p.userId = u)
    ∧ (∀ cid st', deleteCollection (some u) cid st = Except.ok ((), st') →
      othersPreserved u st st')
    ∧ (∀ items n st', listCollections (some u) st = Except.ok ((items, n), st') →
      st' = st ∧ ∀ c ∈ items, c.userId = u)
    ∧ (∀ i fid now p st', createAffirmation (some u) i fid now st = Except.ok (p, st') →
      othersPreserved u st st' ∧ p.userId = u)
    ∧ (∀ i now p st', updateAffirmation (some u) i now st = Except.ok (p, st') →
      othersPreserved u st st' ∧ p.userId = u)
    ∧ (∀ aid st', deleteAffirmation (some u) aid st = Except.ok ((), st') →
      othersPreserved u st st')
    ∧ (∀ i items n st', listAffirmations (some u) i st = Except.ok ((items, n), st') →
      st' = st ∧ ∀ a ∈ items, a.userId = u)
    ∧ (∀ i now, updateCollectionCheck i = true →
      (∀ c ∈ st.collections, c.id = i.id → ¬ c.userId = u) →
      updateCollection (some u) i now st = Except.error ErrorCode.NOT_FOUND) := by
  refine ⟨?_, ?_, ?_, ?_, ?_, ?_, ?_, ?_, ?_⟩
  · -- createCollection
    intro i fid now p st' h
    unfold createCollection at h
    split at h
    · simp only [requireUser] at h
      simp only [Except.ok.injEq, Prod.mk.injEq] at h
      obtain ⟨hp, hst⟩ := h
      subst hp; subst hst
      refine ⟨⟨?_, rfl⟩, rfl⟩
      exact filter_append_single _ _ _ (by simp)
    · simp at h
  · -- updateCollection
    intro i now p st' h
    unfold updateCollection at h
    split at h
    · simp only [requireUser] at h
      split at h
      · simp at h
      · rename_i existing heq
        simp only [Except.ok.injEq, Prod.mk.injEq] at h
        obtain ⟨hp, hst⟩ := h
        subst hp; subst hst
        have hex := (filter_head_spec heq).2
        simp only [Bool.and_eq_true, beq_iff_eq] at hex
        refine ⟨⟨?_, rfl⟩, hex.2⟩
        exact filter_map_ite _ _ _ _ (fun a => rfl)
          (fun a ha => by
            simp only [Bool.and_eq_true, beq_iff_eq] at ha
            simp [ha.2])
    · simp at h
  · -- deleteCollection
    intro cid st' h
    unfold deleteCollection at h
    simp only [requireUser] at h
    split at h
    · simp at h
    · simp only [Except.ok.injEq, Prod.mk.injEq, true_and] at h
      subst h
      refine ⟨?_, ?_⟩
      · exact filter_filter_not _ _ _
          (fun a ha => by
            simp only [Bool.and_eq_true, beq_iff_eq] at ha
            simp [ha.2])
      · exact filter_filter_not _ _ _
          (fun a ha => by
            simp only [Bool.and_eq_true, beq_iff_eq] at ha
            simp [ha.2])
  · -- listCollections
    intro items n st' h
    unfold listCollections at h
    simp only [requireUser] at h
    simp only [Except.ok.injEq, Prod.mk.injEq] at h
    obtain ⟨⟨hitems, _⟩, hst⟩ := h
    subst hst
    refine ⟨rfl, ?_⟩
    intro c hc
    rw [← hitems] at hc
    have := List.of_mem_filter hc
    simpa using this
  · -- createAffirmation
    intro i fid now p st' h
    unfold createAffirmation at h
    split at h
    · simp only [requireUser] at h
      split at h
      · simp at h
      · simp only [Except.ok.injEq, Prod.mk.injEq] at h
        obtain ⟨hp, hst⟩ := h
        subst hp; subst hst
        refine ⟨⟨rfl, ?_⟩, rfl⟩
        exact filter_append_single _ _ _ (by simp)
    · simp at h
  · -- updateAffirmation
    intro i now p st' h
    unfold updateAffirmation at h
    split at h
    · simp only [requireUser] at h
      split at h
      · simp at h
      · rename_i existing heq
        split at h
        · simp at h
        · simp only [Except.ok.injEq, Prod.mk.injEq] at h
          obtain ⟨hp, hst⟩ := h
          subst hp; subst hst
          have hex := (filter_head_spec heq).2
          simp only [Bool.and_eq_true, beq_iff_eq] at hex
          refine ⟨⟨rfl, ?_⟩, hex.2⟩
          exact filter_map_ite _ _ _ _ (fun a => rfl)
            (fun a ha => by
              simp only [Bool.and_eq_true, beq_iff_eq] at ha
              simp [ha.2])
    · simp at h
  · -- deleteAffirmation
    intro aid st' h
    unfold deleteAffirmation at h
    simp only [requireUser] at h
    split at h
    · simp at h
    · simp only [Except.ok.injEq, Prod.mk.injEq, true_and] at h
      subst h
      refine ⟨rfl, ?_⟩
      exact filter_filter_not _ _ _
        (fun a ha => by
          simp only [Bool.and_eq_true, beq_iff_eq] at ha
          simp [ha.2])
  · -- listAffirmations
    intro i items n st' h
    unfold listAffirmations at h
    simp only [requireUser] at h
    simp only [Except.ok.injEq, Prod.mk.injEq] at h
    obtain ⟨⟨hitems, _⟩, hst⟩ := h
    subst hst
    refine ⟨rfl, ?_⟩
    intro a ha
    rw [← hitems] at ha
    have := List.of_mem_filter ha
    unfold listMatches at this
    simp only [Bool.and_eq_true, beq_iff_eq] at this
    exact this.1.1
  · -- updateCollection on a foreign-owned collection fails NOT_FOUND
    intro i now hcheck hforeign
    unfold updateCollection
    have hnil : (st.collections.filter fun c => c.id == i.id && c.userId == u) = [] := by
      rw [List.filter_eq_nil_iff]
      intro c hc
      simp only [Bool.and_eq_true, beq_iff_eq, not_and]
      exact fun h1 h2 => hforeign c hc h1 h2
    simp [hcheck, requireUser, hnil]

/-- A sample collection owned by user A. -/
def colA : Collection :=
  { id := "c1", userId := "A", name := "Focus", description := none,
    icon := none, isDefault := false, createdAt := 0, updatedAt := 0 }

/-- A sample affirmation of user A filed in collection c1. -/
def affA : Affirmation :=
  { id := "a1", collectionId := some "c1", userId := "A", text := "I am calm",
    category := none, language := none, tags := none, useTimeOfDay := none,
    isFavorite := false, isSystem := false, createdAt := 0, updatedAt := 0 }

/-- A sample store holding user A's collection and affirmation. -/
def stA : Store := { collections := [colA], affirmations := [affA] }

/-- Witness for C1: user B updating user A's collection c1 fails
NOT_FOUND. -/
theorem C1_ownership_isolation_witness :
    updateCollection (some "B")
      { id := "c1", name := some "X", description := none, icon := none,
        isDefault := none } 5 stA = Except.error ErrorCode.NOT_FOUND :=
  (C1_ownership_isolation "B" stA).2.2.2.2.2.2.2.2
    { id := "c1", name := some "X", description := none, icon := none,
      isDefault := none } 5 (by decide) (by decide)

/-- Claim C2 counterexample: with no authenticated user, an input that
fails schema validation yields the generic validation error and not
UNAUTHORIZED, because defineAction parses the input against the zod
schema before the handler (and hence requireUser) runs. -/
theorem C2_counterexample :
    createCollection none
      { name := "", description := none, icon := none, isDefault := none }
      "f1" 0 { collections := [], affirmations := [] }
      = Except.error ErrorCode.VALIDATION
    ∧ ErrorCode.VALIDATION ≠ ErrorCode.UNAUTHORIZED :=
  ⟨rfl, by decide⟩

/-- Claim C2 (amended): for every input that passes schema validation,
each of the eight operations called without an authenticated context
fails UNAUTHORIZED; returning an error, it performs no store mutation. -/
theorem C2_unauthenticated_rejected (st : Store) :
    (∀ i fid now, i.name ≠ "" →
      createCollection none i fid now st = Except.error ErrorCode.UNAUTHORIZED)
    ∧ (∀ i now, updateCollectionCheck i = true →
      updateCollection none i now st = Except.error ErrorCode.UNAUTHORIZED)
    ∧ (∀ cid, deleteCollection none cid st = Except.error ErrorCode.UNAUTHORIZED)
    ∧ listCollections none st = Except.error ErrorCode.UNAUTHORIZED
    ∧ (∀ i fid now, i.text ≠ "" →
      createAffirmation none i fid now st = Except.error ErrorCode.UNAUTHORIZED)
    ∧ (∀ i now, updateAffirmationCheck i = true →
      updateAffirmation none i now st = Except.error ErrorCode.UNAUTHORIZED)
    ∧ (∀ aid, deleteAffirmation none aid st = Except.error ErrorCode.UNAUTHORIZED)
    ∧ (∀ i, listAffirmations none i st = Except.error ErrorCode.UNAUTHORIZED) := by
  refine ⟨?_, ?_, fun cid => rfl, rfl, ?_, ?_, fun aid => rfl, fun i => rfl⟩
  · intro i fid now hname
    unfold createCollection
    rw [if_pos (by simpa using hname)]
    rfl
  · intro i now hcheck
    unfold updateCollection
    rw [if_pos hcheck]
    rfl
  · intro i fid now htext
    unfold createAffirmation
    rw [if_pos (by simpa using htext)]
    rfl
  · intro i now hcheck
    unfold updateAffirmation
    rw [if_pos hcheck]
    rfl

/-- Witness for C2 (amended): createAffirmation with a valid input and no
authenticated caller fails UNAUTHORIZED. -/
theorem C2_unauthenticated_rejected_witness :
    createAffirmation none
      { text := "I am calm", collectionId := none, category := none,
        language := none, tags := none, useTimeOfDay := none,
        isFavorite := none } "f1" 3 stA = Except.error ErrorCode.UNAUTHORIZED :=
  (C2_unauthenticated_rejected stA).2.2.2.2.1 _ "f1" 3 (by decide)

/-- Claim C6: updateCollection and updateAffirmation called with an input
holding only the id and none of the optional fields fail with the generic
validation error, for every caller identity, and mutate nothing. -/
theorem C6_update_requires_some_field (ctx : Option String) (st : Store)
    (now : Nat) (idc ida : String) :
    updateCollection ctx
        { id := idc, name := none, description := none, icon := none,
          isDefault := none } now st = Except.error ErrorCode.VALIDATION
    ∧ updateAffirmation ctx
        { id := ida, text := none, collectionId := none, category := none,
          language := none, tags := none, useTimeOfDay := none,
          isFavorite := none } now st = Except.error ErrorCode.VALIDATION := by
  constructor <;> rfl

/-- Claim C8: createCollection with an empty name fails validation and
inserts nothing; with any non-empty name (such as "Morning") it succeeds
and the returned record carries the freshly generated identifier, the
caller as owner, isDefault false when omitted, equal creation and update
timestamps, and is the row appended to the store. -/
theorem C8_create_collection (u fid : String) (now : Nat) (st : Store) :
    (∀ ctx i fid2 now2 st2, i.name = "" →
      createCollection ctx i fid2 now2 st2 = Except.error ErrorCode.VALIDATION)
    ∧ (∀ i : CreateCollectionInput, i.name ≠ "" →
      ∃ p st', createCollection (some u) i fid now st = Except.ok (p, st')
        ∧ p.id = fid ∧ p.userId = u ∧ p.name = i.name
        ∧ (i.isDefault = none → p.isDefault = false)
        ∧ p.createdAt = p.updatedAt
        ∧ st'.collections = st.collections ++ [p]
        ∧ st'.affirmations = st.affirmations) := by
  constructor
  · intro ctx i fid2 now2 st2 hname
    unfold createCollection
    rw [if_neg (by simp [hname])]
  · intro i hname
    unfold createCollection
    rw [if_pos (by simpa using hname)]
    refine ⟨_, _, rfl, rfl, rfl, rfl, ?_, rfl, rfl, rfl⟩
    intro hd
    simp [hd]

/-- Witness for C8: creating "Morning" as user A in the sample store. -/
theorem C8_create_collection_witness :
    ∃ p st', createCollection (some "A")
        { name := "Morning", description := none, icon := none,
          isDefault := none } "c9" 7 stA = Except.ok (p, st')
      ∧ p.id = "c9" ∧ p.userId = "A" ∧ p.name = "Morning"
      ∧ ((none : Option Bool) = none → p.isDefault = false)
      ∧ p.createdAt = p.updatedAt
      ∧ st'.collections = stA.collections ++ [p]
      ∧ st'.affirmations = stA.affirmations :=
  (C8_create_collection "A" "c9" 7 stA).2 _ (by decide)

/-- Claim C10: a falsy-but-present collectionId or favoritesOnly is
treated as absent by the truthiness guards: createAffirmation with
collectionId "" skips the collection ownership check entirely and
persists the row with collectionId "" (not null); updateAffirmation with
collectionId "" likewise skips the re-check and stores ""; and
listAffirmations with collectionId "" or favoritesOnly false applies no
corresponding filter, returning exactly what it returns when the field
is omitted. -/
theorem C10_falsy_fields_treated_absent (u : String) (st : Store)
    (fid : String) (now : Nat) :
    (∀ i : CreateAffirmationInput, i.text ≠ "" → i.collectionId = some "" →
      ∃ p st', createAffirmation (some u) i fid now st = Except.ok (p, st')
        ∧ p.collectionId = some "")
    ∧ (∀ (i : UpdateAffirmationInput) r, updateAffirmationCheck i = true →
      i.collectionId = some (some "") →
      (st.affirmations.filter fun a => a.id == i.id && a.userId == u).head? = some r →
      ∃ p st', updateAffirmation (some u) i now st = Except.ok (p, st')
        ∧ p.collectionId = some "")
    ∧ (∀ fav, listAffirmations (some u)
          (some { collectionId := some "", favoritesOnly := fav }) st
        = listAffirmations (some u)
          (some { collectionId := none, favoritesOnly := fav }) st)
    ∧ (∀ cid, listAffirmations (some u)
          (some { collectionId := cid, favoritesOnly := some false }) st
        = listAffirmations (some u)
          (some { collectionId := cid, favoritesOnly := none }) st) := by
  refine ⟨?_, ?_, ?_, ?_⟩
  · intro i hta hcid
    unfold createAffirmation
    rw [if_pos (by simpa using hta)]
    simp only [requireUser, hcid]
    rw [if_neg (by simp [strTruthy])]
    exact ⟨_, _, rfl, rfl⟩
  · intro i r hcheck hcid hfind
    unfold updateAffirmation
    rw [if_pos hcheck]
    simp only [requireUser, hfind, hcid]
    rw [if_neg (by simp [nullableTruthy])]
    refine ⟨_, _, rfl, ?_⟩
    simp [applyAffirmationUpdates, hcid]
  · intro fav
    unfold listAffirmations
    simp only [requireUser]
    have hm : listMatches u (some { collectionId := some "", favoritesOnly := fav })
        = listMatches u (some { collectionId := none, favoritesOnly := fav }) := by
      funext a
      simp [listMatches, strTruthy, Option.bind]
    rw [hm]
  · intro cid
    unfold listAffirmations
    simp only [requireUser]
    have hm : listMatches u (some { collectionId := cid, favoritesOnly := some false })
        = listMatches u (some { collectionId := cid, favoritesOnly := none }) := by
      funext a
      simp [listMatches, Option.bind]
    rw [hm]

/-- Witness for C10: creating with collectionId "" in the sample store
succeeds and stores "", and listing with collectionId "" equals listing
with no collectionId. -/
theorem C10_falsy_fields_treated_absent_witness :
    (∃ p st', createAffirmation (some "A")
        { text := "I grow", collectionId := some "", category := none,
          language := none, tags := none, useTimeOfDay := none,
          isFavorite := none } "f2" 4 stA = Except.ok (p, st')
      ∧ p.collectionId = some "")
    ∧ listAffirmations (some "A")
        (some { collectionId := some "", favoritesOnly := none }) stA
      = listAffirmations (some "A")
        (some { collectionId := none, favoritesOnly := none }) stA :=
  ⟨(C10_falsy_fields_treated_absent "A" stA "f2" 4).1 _ (by decide) rfl,
   (C10_falsy_fields_treated_absent "A" stA "f2" 4).2.2.1 none⟩

/-- Claim C4: createAffirmation with a (truthy) supplied collectionId not
resolving to a caller-owned collection fails NOT_FOUND and inserts
nothing; with collectionId omitted it succeeds and the created row has
collectionId null, isSystem false, the caller as owner, the freshly
generated identifier, and equal creation and update timestamps. -/
theorem C4_create_affirmation (u fid : String) (now : Nat) (st : Store) :
    (∀ (i : CreateAffirmationInput) s, i.text ≠ "" → i.collectionId = some s →
      s ≠ "" → (∀ c ∈ st.collections, c.id = s → ¬ c.userId = u) →
      createAffirmation (some u) i fid now st = Except.error ErrorCode.NOT_FOUND)
    ∧ (∀ i : CreateAffirmationInput, i.text ≠ "" → i.collectionId = none →
      ∃ p st', createAffirmation (some u) i fid now st = Except.ok (p, st')
        ∧ p.collectionId = none ∧ p.isSystem = false ∧ p.userId = u
        ∧ p.id = fid ∧ p.createdAt = p.updatedAt
        ∧ st'.affirmations = st.affirmations ++ [p]
        ∧ st'.collections = st.collections) := by
  constructor
  · intro i s hta hcid hs hforeign
    unfold createAffirmation
    rw [if_pos (by simpa using hta)]
    simp only [requireUser, hcid]
    rw [if_pos (by simp [strTruthy, hs]; exact hforeign)]
  · intro i hta hcid
    unfold createAffirmation
    rw [if_pos (by simpa using hta)]
    simp only [requireUser, hcid]
    rw [if_neg (by simp [strTruthy])]
    exact ⟨_, _, rfl, rfl, rfl, rfl, rfl, rfl, rfl, rfl⟩

/-- Witness for C4: in the sample store, creating with the foreign id
"zz" fails NOT_FOUND, and creating without a collectionId succeeds with
a null collectionId. -/
theorem C4_create_affirmation_witness :
    createAffirmation (some "A")
      { text := "T", collectionId := some "zz", category := none,
        language := none, tags := none, useTimeOfDay := none,
        isFavorite := none } "f3" 4 stA = Except.error ErrorCode.NOT_FOUND
    ∧ (∃ p st', createAffirmation (some "A")
        { text := "T", collectionId := none, category := none,
          language := none, tags := none, useTimeOfDay := none,
          isFavorite := none } "f3" 4 stA = Except.ok (p, st')
      ∧ p.collectionId = none ∧ p.isSystem = false ∧ p.userId = "A"
      ∧ p.id = "f3" ∧ p.createdAt = p.updatedAt
      ∧ st'.affirmations = stA.affirmations ++ [p]
      ∧ st'.collections = stA.collections) :=
  ⟨(C4_create_affirmation "A" "f3" 4 stA).1 _ "zz" (by decide) rfl (by decide) (by decide),
   (C4_create_affirmation "A" "f3" 4 stA).2 _ (by decide) rfl⟩

/-- Claim C7: updateAffirmation re-validates collectionId ownership only
when the supplied value is truthy: on an affirmation owned by the caller,
an input with collectionId explicitly null skips the re-check, succeeds,
and stores collectionId as null; an input with a truthy collectionId not
owned by the caller fails NOT_FOUND. -/
theorem C7_update_collection_id_recheck (u : String) (st : Store) (now : Nat) :
    (∀ (i : UpdateAffirmationInput) r, updateAffirmationCheck i = true →
      i.collectionId = some none →
      (st.affirmations.filter fun a => a.id == i.id && a.userId == u).head? = some r →
      ∃ p st', updateAffirmation (some u) i now st = Except.ok (p, st')
        ∧ p.collectionId = none)
    ∧ (∀ (j : UpdateAffirmationInput) r s, updateAffirmationCheck j = true →
      j.collectionId = some (some s) → s ≠ "" →
      (st.affirmations.filter fun a => a.id == j.id && a.userId == u).head? = some r →
      (∀ c ∈ st.collections, c.id = s → ¬ c.userId = u) →
      updateAffirmation (some u) j now st = Except.error ErrorCode.NOT_FOUND) := by
  constructor
  · intro i r hcheck hcid hfind
    unfold updateAffirmation
    rw [if_pos hcheck]
    simp only [requireUser, hfind, hcid]
    rw [if_neg (by simp [nullableTruthy])]
    refine ⟨_, _, rfl, ?_⟩
    simp [applyAffirmationUpdates, hcid]
  · intro j r s hcheck hcid hs hfind hforeign
    unfold updateAffirmation
    rw [if_pos hcheck]
    simp only [requireUser, hfind, hcid]
    rw [if_pos (by simp [nullableTruthy, hs]; exact hforeign)]

/-- Witness for C7: in the sample store, user A un-categorizing a1 with
an explicit null succeeds and stores null, while pointing a1 at the
unowned collection id "c2" fails NOT_FOUND. -/
theorem C7_update_collection_id_recheck_witness :
    (∃ p st', updateAffirmation (some "A")
        { id := "a1", text := none, collectionId := some none,
          category := none, language := none, tags := none,
          useTimeOfDay := none, isFavorite := none } 6 stA = Except.ok (p, st')
      ∧ p.collectionId = none)
    ∧ updateAffirmation (some "A")
        { id := "a1", text := none, collectionId := some (some "c2"),
          category := none, language := none, tags := none,
          useTimeOfDay := none, isFavorite := none } 6 stA
        = Except.error ErrorCode.NOT_FOUND :=
  ⟨(C7_update_collection_id_recheck "A" stA 6).1 _ affA (by decide) rfl (by decide),
   (C7_update_collection_id_recheck "A" stA 6).2 _ affA "c2" (by decide) rfl
     (by decide) (by decide) (by decide)⟩

/-- Claim C5: for an existing affirmation owned by the caller and a valid
update input whose truthy collectionId (if any) the caller owns, the
operation succeeds; the returned record is persisted, keeps id, owner and
creation timestamp, replaces exactly the supplied fields, keeps every
unsupplied field at its prior value, and refreshes updatedAt to the
call-time clock, which strictly exceeds the prior value whenever the
clock has advanced past it. -/
theorem C5_update_affirmation_frame (u : String) (i : UpdateAffirmationInput)
    (now : Nat) (st : Store) (r : Affirmation)
    (hcheck : updateAffirmationCheck i = true)
    (hfind : (st.affirmations.filter fun a => a.id == i.id && a.userId == u).head? = some r)
    (hcol : ∀ s, i.collectionId = some (some s) → s ≠ "" →
      ∃ c ∈ st.collections, c.id = s ∧ c.userId = u)
    (hnow : r.updatedAt < now) :
    ∃ p st', updateAffirmation (some u) i now st = Except.ok (p, st')
      ∧ p ∈ st'.affirmations
      ∧ p.id = r.id ∧ p.userId = r.userId ∧ p.createdAt = r.createdAt
      ∧ (i.text = none → p.text = r.text)
      ∧ (∀ v, i.text = some v → p.text = v)
      ∧ (i.collectionId = none → p.collectionId = r.collectionId)
      ∧ (∀ v, i.collectionId = some v → p.collectionId = v)
      ∧ (i.category = none → p.category = r.category)
      ∧ (∀ v, i.category = some v → p.category = some v)
      ∧ (i.language = none → p.language = r.language)
      ∧ (∀ v, i.language = some v → p.language = some v)
      ∧ (i.tags = none → p.tags = r.tags)
      ∧ (∀ v, i.tags = some v → p.tags = some v)
      ∧ (i.useTimeOfDay = none → p.useTimeOfDay = r.useTimeOfDay)
      ∧ (∀ v, i.useTimeOfDay = some v → p.useTimeOfDay = some v)
      ∧ (i.isFavorite = none → p.isFavorite = r.isFavorite)
      ∧ (∀ v, i.isFavorite = some v → p.isFavorite = v)
      ∧ p.updatedAt = now
      ∧ r.updatedAt < p.updatedAt := by
  have hguard : (nullableTruthy i.collectionId
      && (st.collections.filter fun c =>
            some (some c.id) == i.collectionId && c.userId == u).isEmpty) = false := by
    cases hic : i.collectionId with
    | none => simp [nullableTruthy]
    | some o =>
      cases o with
      | none => simp [nullableTruthy]
      | some s =>
        by_cases hs : s = ""
        · simp [nullableTruthy, hs]
        · obtain ⟨c, hc, hcs, hcu⟩ := hcol s hic hs
          have hmem : c ∈ st.collections.filter fun c =>
              some (some c.id) == i.collectionId && c.userId == u :=
            List.mem_filter.mpr ⟨hc, by simp [hic, hcs, hcu]⟩
          have hne : (st.collections.filter fun c =>
              some (some c.id) == i.collectionId && c.userId == u) ≠ [] :=
            List.ne_nil_of_mem hmem
          simp only [hic] at hne ⊢
          simp [nullableTruthy, hs, List.isEmpty_iff, hne]
          exact ⟨c, hc, hcs, hcu⟩
  unfold updateAffirmation
  rw [if_pos hcheck]
  simp only [requireUser, hfind]
  rw [if_neg (by simp [hguard])]
  have hspec := filter_head_spec hfind
  refine ⟨_, _, rfl, ?_, rfl, rfl, rfl, ?_, ?_, ?_, ?_, ?_, ?_, ?_, ?_, ?_,
    ?_, ?_, ?_, ?_, ?_, rfl, hnow⟩
  · exact List.mem_map.mpr ⟨r, hspec.1, by rw [if_pos hspec.2]⟩
  · intro h; simp [applyAffirmationUpdates, h]
  · intro v h; simp [applyAffirmationUpdates, h]
  · intro h; simp [applyAffirmationUpdates, h]
  · intro v h; simp [applyAffirmationUpdates, h]
  · intro h; simp [applyAffirmationUpdates, h]
  · intro v h; simp [applyAffirmationUpdates, h]
  · intro h; simp [applyAffirmationUpdates, h]
  · intro v h; simp [applyAffirmationUpdates, h]
  · intro h; simp [applyAffirmationUpdates, h]
  · intro v h; simp [applyAffirmationUpdates, h]
  · intro h; simp [applyAffirmationUpdates, h]
  · intro v h; simp [applyAffirmationUpdates, h]
  · intro h; simp [applyAffirmationUpdates, h]
  · intro v h; simp [applyAffirmationUpdates, h]

/-- Witness for C5: user A updating only the text of a1 at time 5. -/
theorem C5_update_affirmation_frame_witness :
    ∃ p st', updateAffirmation (some "A")
        { id := "a1", text := some "I am strong", collectionId := none,
          category := none, language := none, tags := none,
          useTimeOfDay := none, isFavorite := none } 5 stA = Except.ok (p, st')
      ∧ p ∈ st'.affirmations
      ∧ p.id = affA.id ∧ p.userId = affA.userId ∧ p.createdAt = affA.createdAt
      ∧ ((some "I am strong" : Option String) = none → p.text = affA.text)
      ∧ (∀ v, (some "I am strong" : Option String) = some v → p.text = v)
      ∧ ((none : Option (Option String)) = none → p.collectionId = affA.collectionId)
      ∧ (∀ v, (none : Option (Option String)) = some v → p.collectionId = v)
      ∧ ((none : Option String) = none → p.category = affA.category)
      ∧ (∀ v, (none : Option String) = some v → p.category = some v)
      ∧ ((none : Option String) = none → p.language = affA.language)
      ∧ (∀ v, (none : Option String) = some v → p.language = some v)
      ∧ ((none : Option String) = none → p.tags = affA.tags)
      ∧ (∀ v, (none : Option String) = some v → p.tags = some v)
      ∧ ((none : Option TimeOfDay) = none → p.useTimeOfDay = affA.useTimeOfDay)
      ∧ (∀ v, (none : Option TimeOfDay) = some v → p.useTimeOfDay = some v)
      ∧ ((none : Option Bool) = none → p.isFavorite = affA.isFavorite)
      ∧ (∀ v, (none : Option Bool) = some v → p.isFavorite = v)
      ∧ p.updatedAt = 5
      ∧ affA.updatedAt < p.updatedAt :=
  C5_update_affirmation_frame "A"
    { id := "a1", text := some "I am strong", collectionId := none,
      category := none, language := none, tags := none,
      useTimeOfDay := none, isFavorite := none } 5 stA affA
    (by decide) (by decide) (fun s hs _ => Option.noConfusion hs) (by decide)

/-- A row passing the listAffirmations filter conjunction is owned by the
caller, has the requested collectionId when that filter is active, and is
a favorite when that filter is active. -/
theorem listMatches_spec (user : String) (i : Option ListAffirmationsInput)
    (a : Affirmation) (h : listMatches user i a = true) :
    a.userId = user
    ∧ (∀ s, (i.bind fun x => x.collectionId) = some s → s ≠ "" →
        a.collectionId = some s)
    ∧ ((i.bind fun x => x.favoritesOnly) = some true → a.isFavorite = true) := by
  unfold listMatches at h
  simp only [Bool.and_eq_true] at h
  obtain ⟨⟨h1, h2⟩, h3⟩ := h
  refine ⟨by simpa using h1, ?_, ?_⟩
  · intro s hs hsne
    rw [hs] at h2
    have hc : strTruthy (some s) = true := by simp [strTruthy, hsne]
    rw [if_pos hc] at h2
    simpa using h2
  · intro hf
    rw [hf] at h3
    simpa using h3

/-- Claim C9: listAffirmations always restricts results to the caller's
rows; a truthy collectionId filter keeps only rows with that
collectionId; favoritesOnly true keeps only favorite rows regardless of
other filters; the returned total is the number of returned items and the
store is unchanged. -/
theorem C9_list_affirmations_filters (u : String)
    (i : Option ListAffirmationsInput) (st : Store) :
    ∃ items, listAffirmations (some u) i st = Except.ok ((items, items.length), st)
      ∧ (∀ a ∈ items, a.userId = u)
      ∧ (∀ s, (i.bind fun x => x.collectionId) = some s → s ≠ "" →
          ∀ a ∈ items, a.collectionId = some s)
      ∧ ((i.bind fun x => x.favoritesOnly) = some true →
          ∀ a ∈ items, a.isFavorite = true) := by
  refine ⟨_, rfl, ?_, ?_, ?_⟩
  · intro a ha
    exact (listMatches_spec u i a (List.of_mem_filter ha)).1
  · intro s hs hsne a ha
    exact (listMatches_spec u i a (List.of_mem_filter ha)).2.1 s hs hsne
  · intro hf a ha
    exact (listMatches_spec u i a (List.of_mem_filter ha)).2.2 hf

/-- A favorite affirmation of user A filed in c1. -/
def affF : Affirmation :=
  { id := "a2", collectionId := some "c1", userId := "A", text := "I shine",
    category := none, language := none, tags := none, useTimeOfDay := none,
    isFavorite := true, isSystem := false, createdAt := 0, updatedAt := 0 }

/-- An affirmation of user B. -/
def affB : Affirmation :=
  { id := "b1", collectionId := none, userId := "B", text := "B text",
    category := none, language := none, tags := none, useTimeOfDay := none,
    isFavorite := true, isSystem := false, createdAt := 0, updatedAt := 0 }

/-- A sample store with a favorite row of A and a row of B. -/
def stB : Store := { collections := [colA], affirmations := [affA, affF, affB] }

/-- Witness for C9: listing user A's favorites in collection c1 over the
mixed sample store. -/
theorem C9_list_affirmations_filters_witness :
    ∃ items, listAffirmations (some "A")
        (some { collectionId := some "c1", favoritesOnly := some true }) stB
        = Except.ok ((items, items.length), stB)
      ∧ (∀ a ∈ items, a.userId = "A")
      ∧ (∀ s, ((some { collectionId := some "c1", favoritesOnly := some true }
            : Option ListAffirmationsInput).bind fun x => x.collectionId) = some s →
          s ≠ "" → ∀ a ∈ items, a.collectionId = some s)
      ∧ (((some { collectionId := some "c1", favoritesOnly := some true }
            : Option ListAffirmationsInput).bind fun x => x.favoritesOnly) = some true →
          ∀ a ∈ items, a.isFavorite = true) :=
  C9_list_affirmations_filters "A"
    (some { collectionId := some "c1", favoritesOnly := some true }) stB

/-- Claim C3: deleteCollection by the owner of collection cid succeeds
with a bare success signal, removes every affirmation of the caller
filed under cid while keeping other users' affirmations, and afterwards
listAffirmations filtered by cid for the caller returns no items with
total 0 and listCollections for the caller no longer includes cid; other
users' collections are kept. -/
theorem C3_delete_collection_cascade (u cid : String) (st : Store)
    (hcid : cid ≠ "")
    (hown : ∃ c ∈ st.collections, c.id = cid ∧ c.userId = u) :
    ∃ st', deleteCollection (some u) cid st = Except.ok ((), st')
      ∧ (∀ a ∈ st'.affirmations, a.userId = u → a.collectionId ≠ some cid)
      ∧ (∀ a ∈ st.affirmations, a.userId ≠ u → a ∈ st'.affirmations)
      ∧ listAffirmations (some u)
          (some { collectionId := some cid, favoritesOnly := none }) st'
          = Except.ok (([], 0), st')
      ∧ (∀ items n st'', listCollections (some u) st' = Except.ok ((items, n), st'') →
          ∀ c ∈ items, c.id ≠ cid)
      ∧ (∀ c ∈ st.collections, c.userId ≠ u → c ∈ st'.collections) := by
  obtain ⟨c0, hc0, hcs, hcu⟩ := hown
  obtain ⟨y, hy⟩ := filter_head_of_mem
    (p := fun c => c.id == cid && c.userId == u) hc0 (by simp [hcs, hcu])
  unfold deleteCollection
  simp only [requireUser, hy]
  refine ⟨_, rfl, ?_, ?_, ?_, ?_, ?_⟩
  · intro a ha hu hcon
    have hkeep := List.of_mem_filter ha
    simp [hu, hcon] at hkeep
  · intro a ha hu
    exact List.mem_filter.mpr ⟨ha, by simp [hu]⟩
  · unfold listAffirmations
    simp only [requireUser]
    have hnil : (st.affirmations.filter fun a =>
        !(a.collectionId == some cid && a.userId == u)).filter
        (listMatches u (some { collectionId := some cid, favoritesOnly := none })) = [] := by
      rw [List.filter_eq_nil_iff]
      intro a ha
      have hkeep := List.of_mem_filter ha
      cases hX : (a.userId == u) with
      | false => simp [listMatches, hX]
      | true =>
        have hY : (a.collectionId == some cid) = false := by
          cases hY : (a.collectionId == some cid) with
          | false => rfl
          | true => rw [hY, hX] at hkeep; simp at hkeep
        have hTr : strTruthy (some cid) = true := by simp [strTruthy, hcid]
        simp [listMatches, hTr, hX, hY]
    rw [hnil]
    rfl
  · intro items n st'' h
    unfold listCollections at h
    simp only [requireUser, Except.ok.injEq, Prod.mk.injEq] at h
    obtain ⟨⟨hitems, _⟩, _⟩ := h
    intro c hc hceq
    rw [← hitems] at hc
    have h1 := List.of_mem_filter hc
    have h3 := List.of_mem_filter (List.mem_of_mem_filter hc)
    have hu : c.userId = u := by simpa using h1
    simp [hceq, hu] at h3
  · intro c hc hcu2
    exact List.mem_filter.mpr ⟨hc, by simp [hcu2]⟩

/-- Witness for C3: user A deleting collection c1 from the sample
store. -/
theorem C3_delete_collection_cascade_witness :
    ∃ st', deleteCollection (some "A") "c1" stA = Except.ok ((), st')
      ∧ (∀ a ∈ st'.affirmations, a.userId = "A" → a.collectionId ≠ some "c1")
      ∧ (∀ a ∈ stA.affirmations, a.userId ≠ "A" → a ∈ st'.affirmations)
      ∧ listAffirmations (some "A")
          (some { collectionId := some "c1", favoritesOnly := none }) st'
          = Except.ok (([], 0), st')
      ∧ (∀ items n st'', listCollections (some "A") st' = Except.ok ((items, n), st'') →
          ∀ c ∈ items, c.id ≠ "c1")
      ∧ (∀ c ∈ stA.collections, c.userId ≠ "A" → c ∈ st'.collections) :=
  C3_delete_collection_cascade "A" "c1" stA (by decide) (by decide)

end AffirmationGenerator
